import Mathlib

/-!
# PTCE (Predictive Triadic Consensus Engine) — verification development

Shallow embedding of the consensus pipeline of `src/services/ptce-service.ts`
(class `PTCEService`).  JavaScript numbers are modeled as exact rationals;
the one place the modeled code can leave the finite numbers — the weighted
average `weightedSum / confidenceSum` in `calculateConsensusScores`, which is
IEEE `0/0 = NaN` when every confidence is exactly `0` — is modeled by an
`Option ℚ` value, `none` standing for the non-finite result, with the IEEE
NaN propagation and comparison rules made explicit.
-/

namespace PTCE

/-- The five bounded numeric attributes of a `Model`
(`src/types/ptce.types.ts`). -/
structure Attributes where
  attack_power : ℚ
  defense : ℚ
  speed_agility : ℚ
  strategy : ℚ
  endurance : ℚ
deriving DecidableEq

/-- The `Model` interface, restricted to the fields the PTCE pipeline reads
(`id`, `name`, `attributes`); the remaining fields of the TypeScript
interface (prompt, URLs, ip, key) are inert payload never consulted by the
algorithm. -/
structure Model where
  id : String
  name : String
  attributes : Attributes
deriving DecidableEq

/-- An `LLMEvaluation`: `{score, confidence, reasoning}`. -/
structure Evaluation where
  score : ℚ
  confidence : ℚ
  reasoning : String
deriving DecidableEq

/-- A JavaScript number: an exact rational, or `none` for the non-finite
value produced by a zero denominator (in the modeled code this is always
IEEE `0/0 = NaN`). -/
abbrev JNum := Option ℚ

/-- JavaScript division of two finite numbers: non-finite (`none`) exactly
when the denominator is `0`. -/
def jsDiv (a b : ℚ) : JNum := if b = 0 then none else some (a / b)

/-- NaN-propagating subtraction. -/
def jsSub : JNum → JNum → JNum
  | some a, some b => some (a - b)
  | _, _ => none

/-- `Math.abs`, NaN-propagating. -/
def jsAbs : JNum → JNum
  | some a => some |a|
  | none => none

/-- `Math.min(1.0, x)`: in JavaScript `Math.min` of anything with NaN is
NaN. -/
def jsMin1 : JNum → JNum
  | some a => some (min 1 a)
  | none => none

/-- The strict JavaScript comparison `a > b`: every comparison with NaN is
`false`. -/
def jsGt : JNum → JNum → Bool
  | some a, some b => decide (b < a)
  | _, _ => false

/-- The JavaScript expression `x || d` for a numeric `x`: a falsy number
(`NaN` or `0`) selects the default. -/
def jsOrDefault (x : JNum) (d : ℚ) : ℚ :=
  match x with
  | none => d
  | some a => if a = 0 then d else a

/-- The `InitialEvaluations` record `{llm1, llm2, llm3}`.  Each JS
`ModelEvaluation` object (`{[modelId]: Evaluation}`) is modeled as a total
function `String → Evaluation` together with the shared key list
`modelIds` (= `Object.keys`, identical for all three slots since the three
objects are always built with the same keys in the same insertion order). -/
structure InitialEvaluations where
  modelIds : List String
  llm1 : String → Evaluation
  llm2 : String → Evaluation
  llm3 : String → Evaluation

/-- The three slot scores of one entity, in slot order — the list
`[llm1[id].score, llm2[id].score, llm3[id].score]` that the source builds
inline in `facilitateInteractiveDiscussion`, `calculateConsensusScores` and
`simulateDiscussionRound`. -/
def slotScores (ie : InitialEvaluations) (modelId : String) : List ℚ :=
  [(ie.llm1 modelId).score, (ie.llm2 modelId).score, (ie.llm3 modelId).score]

/-- `calculateVariance`: population variance (divide by N).  Every call in
the source passes a three-element list, so the `length = 0` degenerate case
never occurs. -/
def calculateVariance (scores : List ℚ) : ℚ :=
  let mean := scores.sum / (scores.length : ℚ)
  let squaredDifferences := scores.map (fun score => (score - mean) ^ 2)
  squaredDifferences.sum / (scores.length : ℚ)

/-- The per-entity variance computed in `facilitateInteractiveDiscussion`
(the `varianceByModel` record). -/
def varianceByModel (ie : InitialEvaluations) (modelId : String) : ℚ :=
  calculateVariance (slotScores ie modelId)

/-- `simulateDiscussionRound`: every slot score of every listed entity moves
toward that entity's pre-adjustment mean by `adjustmentFactor = 0.4`, and
every confidence moves toward `1` by `0.3`; reasoning text is untouched and
(as in the source's deep copy) entries outside the key list are unchanged.
All means are computed from the un-adjusted input, exactly as the source
reads them from `initialEvaluations`. -/
def simulateDiscussionRound (initialEvaluations : InitialEvaluations) : InitialEvaluations :=
  let adjustmentFactor : ℚ := 0.4
  let adjust : (String → Evaluation) → String → Evaluation := fun llm modelId =>
    if modelId ∈ initialEvaluations.modelIds then
      let scores := slotScores initialEvaluations modelId
      let mean := scores.sum / (scores.length : ℚ)
      let e := llm modelId
      { score := e.score * (1 - adjustmentFactor) + mean * adjustmentFactor
        confidence := e.confidence + (1 - e.confidence) * 0.3
        reasoning := e.reasoning }
    else llm modelId
  { modelIds := initialEvaluations.modelIds
    llm1 := adjust initialEvaluations.llm1
    llm2 := adjust initialEvaluations.llm2
    llm3 := adjust initialEvaluations.llm3 }

/-- `DiscussionResults`: the (possibly adjusted) evaluations plus a
reasoning string. -/
structure DiscussionResults where
  evaluations : InitialEvaluations
  reasoning : String

/-- The disagreement-branch reasoning text.  The source interpolates the
per-model variances formatted with `toFixed(2)` (binary floating point
display formatting); that numeric text is elided here since no claim
concerns it, only the branch taken. -/
def disagreementReasoning : String :=
  "Initial disagreement detected. After discussion, the evaluations were refined."

/-- The agreement-branch reasoning text (variance listing elided, see
`disagreementReasoning`). -/
def agreementReasoning : String :=
  "Agreement achieved in initial evaluation."

/-- `facilitateInteractiveDiscussion`: computes the per-entity variance of
the three slot scores; if any listed entity's variance exceeds `2`
(the source's `Object.values(varianceByModel).some(v => v > 2)`, modeled as
the decidable existential over the key list), runs exactly one
`simulateDiscussionRound`, otherwise returns the input evaluations
unchanged. -/
def facilitateInteractiveDiscussion (initialEvaluations : InitialEvaluations) : DiscussionResults :=
  if ∃ modelId ∈ initialEvaluations.modelIds,
      varianceByModel initialEvaluations modelId > 2 then
    { evaluations := simulateDiscussionRound initialEvaluations
      reasoning := disagreementReasoning }
  else
    { evaluations := initialEvaluations
      reasoning := agreementReasoning }

/-- `ModelConsensusScore`: the per-entity consensus record.  `finalScore`
is a `JNum` because the source's division produces IEEE NaN when the
confidence sum is `0`. -/
structure ModelConsensusScore where
  individualScores : List ℚ
  confidenceScores : List ℚ
  weightedScores : List ℚ
  finalScore : JNum
deriving DecidableEq

/-- The body of `calculateConsensusScores`' per-model loop: the three raw
scores, the three confidences, the confidence-weighted scores, and
`finalScore = Σ(score·confidence) / Σconfidence`. -/
def consensusEntry (evaluations : InitialEvaluations) (modelId : String) : ModelConsensusScore :=
  let scores := slotScores evaluations modelId
  let confidences :=
    [(evaluations.llm1 modelId).confidence,
     (evaluations.llm2 modelId).confidence,
     (evaluations.llm3 modelId).confidence]
  let weightedScores := List.zipWith (fun score conf => score * conf) scores confidences
  let confidenceSum := confidences.sum
  { individualScores := scores
    confidenceScores := confidences
    weightedScores := weightedScores
    finalScore := jsDiv weightedScores.sum confidenceSum }

/-- The `ConsensusScores` result object: one `ModelConsensusScore` per key
plus a shared `confidence`.  The per-key entries are modeled as a total
function (the source's object holds entries only for the ids it was passed;
downstream code reads exactly those ids). -/
structure ConsensusScores where
  entries : String → ModelConsensusScore
  confidence : JNum

/-- `calculateConsensusScores`: per-model weighted averages, plus the shared
overall confidence — with at least two ids,
`Math.min(1.0, |finalScore₀ − finalScore₁| / 2 + 0.5)` (NaN-propagating, as
in IEEE arithmetic and `Math.min`); with fewer than two ids the default
`0.7`. -/
def calculateConsensusScores (discussionResults : DiscussionResults)
    (modelIds : List String) : ConsensusScores :=
  let evaluations := discussionResults.evaluations
  let entries := fun modelId => consensusEntry evaluations modelId
  let confidence : JNum :=
    if 2 ≤ modelIds.length then
      let s0 := (entries (modelIds.getD 0 "")).finalScore
      let s1 := (entries (modelIds.getD 1 "")).finalScore
      let scoreDifference := jsAbs (jsSub s0 s1)
      jsMin1 (scoreDifference.map (fun d => d / 2 + 0.5))
    else some 0.7
  { entries := entries, confidence := confidence }

/-- `generateFeatureVector`: the fixed 8-slot layout derived from the five
attributes. -/
def generateFeatureVector (model : Model) : List ℚ :=
  [model.attributes.attack_power / 100,
   model.attributes.defense / 100,
   model.attributes.speed_agility / 100,
   model.attributes.strategy / 100,
   model.attributes.endurance / 100,
   (model.attributes.attack_power + model.attributes.speed_agility) / 200,
   (model.attributes.defense + model.attributes.endurance) / 200,
   model.attributes.strategy / 100]

/-- The fixed simulated neural-network weights of
`simulateNeuralNetworkPrediction`. -/
def nnWeights : List ℚ := [0.2, 0.15, 0.15, 0.25, 0.15, 0.3, 0.25, 0.4]

/-- `simulateNeuralNetworkPrediction`.  The source applies the logistic
sigmoid `1/(1 + Math.exp(-x))` to the cyclically weighted sum; `Math.exp`
is transcendental, so the activation is kept as an explicit parameter
`sigmoid` standing for `x ↦ 1/(1+e^(-x))` (in particular any faithful
instantiation sends `0` to `1/2` and lands strictly inside `(0,1)`). -/
def simulateNeuralNetworkPrediction (sigmoid : ℚ → ℚ) (weightedFeatures : List ℚ) : ℚ :=
  let weights := nnWeights
  let weightedSum :=
    (weightedFeatures.enum.map (fun p => p.2 * weights.getD (p.1 % weights.length) 0)).sum
  sigmoid weightedSum

/-- The body of `generatePredictiveOutcomes`' per-model loop: the feature
vector weighted by that entity's slot confidences (`index % 3`, cyclic),
pushed through the simulated network. -/
def predictiveOutcomeFor (sigmoid : ℚ → ℚ) (model : Model)
    (consensusScores : ConsensusScores) : ℚ :=
  let featureVector := generateFeatureVector model
  let confidenceScores := (consensusScores.entries model.id).confidenceScores
  let weightedFeatures :=
    featureVector.enum.map (fun p => p.2 * confidenceScores.getD (p.1 % 3) 0)
  simulateNeuralNetworkPrediction sigmoid weightedFeatures

/-- `generatePredictiveOutcomes`: one outcome per entity id, built in loop
order `[model1, model2]` (so for a duplicated id the later write wins, as
for a JS object). -/
def generatePredictiveOutcomes (sigmoid : ℚ → ℚ) (model1 model2 : Model)
    (consensusScores : ConsensusScores) : String → ℚ := fun modelId =>
  if modelId = model2.id then predictiveOutcomeFor sigmoid model2 consensusScores
  else if modelId = model1.id then predictiveOutcomeFor sigmoid model1 consensusScores
  else 0

/-- The per-model blended score of `determineWinnerModel`:
`0.7·finalScore + 0.3·predictiveOutcome·10`, NaN-propagating. -/
def blendedFinalScore (consensusScores : ConsensusScores)
    (predictiveOutcomes : String → ℚ) (modelId : String) : JNum :=
  (consensusScores.entries modelId).finalScore.map
    (fun f => 0.7 * f + 0.3 * predictiveOutcomes modelId * 10)

/-- `determineWinnerModel`: the strict comparison
`model1FinalScore > model2FinalScore ? model1 : model2` on the blended
scores (every comparison with NaN is false, so NaN also selects
`model2`). -/
def determineWinnerModel (model1 model2 : Model) (consensusScores : ConsensusScores)
    (predictiveOutcomes : String → ℚ) : Model :=
  if jsGt (blendedFinalScore consensusScores predictiveOutcomes model1.id)
      (blendedFinalScore consensusScores predictiveOutcomes model2.id)
  then model1 else model2

/-- The `PTCEResult` shape: winner, per-id scores object, confidence,
reasoning.  The scores object is modeled as an association list in key
insertion order. -/
structure PTCEResult where
  winner : Model
  scores : List (String × JNum)
  confidence : ℚ
  reasoning : String

/-- The object literal `{[id1]: v1, [id2]: v2}`: one key when the two ids
coincide (the later write wins), otherwise both keys in insertion order. -/
def scoresLiteral (id1 id2 : String) (v1 v2 : JNum) : List (String × JNum) :=
  if id1 = id2 then [(id2, v2)] else [(id1, v1), (id2, v2)]

/-- Stage 3 as invoked by `determineWinner`:
`calculateConsensusScores(discussionResults, model1.id, model2.id)` applied
to the Discussion Stage output. -/
def pipelineConsensus (model1 model2 : Model) (evaluations : InitialEvaluations) : ConsensusScores :=
  calculateConsensusScores (facilitateInteractiveDiscussion evaluations) [model1.id, model2.id]

/-- Stage 4 as invoked by `determineWinner`. -/
def pipelinePredictive (sigmoid : ℚ → ℚ) (model1 model2 : Model)
    (evaluations : InitialEvaluations) : String → ℚ :=
  generatePredictiveOutcomes sigmoid model1 model2 (pipelineConsensus model1 model2 evaluations)

/-- `determineWinner`, stages 2–5 plus the result assembly (the returned
object literal).  Stage 1, `performInitialEvaluations`, performs external
LLM calls; its completed output — either fully source-derived or the full
heuristic fallback — enters here as the `evaluations` parameter.  `sigmoid`
abstracts the transcendental logistic activation of the Predictive Stage.
The returned `scores` object stores each entity's consensus `finalScore`
(`consensusScores[id].finalScore`), and the returned `confidence` is
`consensusScores.confidence || 0.7`. -/
def determineWinner (sigmoid : ℚ → ℚ) (model1 model2 : Model)
    (evaluations : InitialEvaluations) : PTCEResult :=
  let discussionResults := facilitateInteractiveDiscussion evaluations
  let consensusScores := pipelineConsensus model1 model2 evaluations
  let predictiveOutcomes := pipelinePredictive sigmoid model1 model2 evaluations
  { winner := determineWinnerModel model1 model2 consensusScores predictiveOutcomes
    scores := scoresLiteral model1.id model2.id
      (consensusScores.entries model1.id).finalScore
      (consensusScores.entries model2.id).finalScore
    confidence := jsOrDefault consensusScores.confidence 0.7
    reasoning := discussionResults.reasoning }

/-- The `AttributeType` union. -/
inductive AttributeType where
  | creativity
  | technical
  | performance
  | overall
deriving DecidableEq

/-- `evaluateAttribute`: maps a model's attributes to a base score per
criterion and scales it onto `[lo, hi]` (the source's `min`/`max`
parameters, always called with `5`/`10`). -/
def evaluateAttribute (model : Model) (attributeType : AttributeType) (lo hi : ℚ) : ℚ :=
  let baseScore : ℚ :=
    match attributeType with
    | .creativity => (model.attributes.strategy + model.attributes.endurance) / 2
    | .technical => (model.attributes.defense + model.attributes.speed_agility) / 2
    | .performance => (model.attributes.attack_power + model.attributes.speed_agility) / 2
    | .overall =>
        (model.attributes.attack_power + model.attributes.defense +
         model.attributes.speed_agility + model.attributes.strategy +
         model.attributes.endurance) / 5
  lo + (baseScore / 100) * (hi - lo)

/-- `generateConfidenceScore`: `0.7 + Math.random() * 0.25`.  `rand` models
the `Math.random()` draw, a value in `[0, 1)`. -/
def generateConfidenceScore (rand : ℚ) : ℚ := 0.7 + rand * 0.25

/-- A placeholder `Evaluation` standing for the `undefined` a JS object
read at an absent key would produce; never reached by the modeled code. -/
def absentEvaluation : Evaluation := { score := 0, confidence := 0, reasoning := "" }

/-- `performSimulatedEvaluations` (the heuristic fallback pass).  `rand`
supplies the six successive `Math.random()` draws of
`generateConfidenceScore`, in source order: llm1·model1, llm1·model2,
llm2·model1, llm2·model2, llm3·model1, llm3·model2.  Scores come from
`evaluateAttribute` on `[5,10]`; reasoning is the templated sentence of the
source.  Key semantics follow JS object literals: for a duplicated id the
later write wins and `Object.keys` holds one entry. -/
def performSimulatedEvaluations (rand : Fin 6 → ℚ) (model1 model2 : Model) : InitialEvaluations :=
  let e11 : Evaluation :=
    { score := evaluateAttribute model1 .creativity 5 10
      confidence := generateConfidenceScore (rand 0)
      reasoning := "Model " ++ model1.name ++ " shows " ++
        (if model1.attributes.strategy > 70 then "high" else "moderate") ++ " creativity." }
  let e12 : Evaluation :=
    { score := evaluateAttribute model2 .creativity 5 10
      confidence := generateConfidenceScore (rand 1)
      reasoning := "Model " ++ model2.name ++ " shows " ++
        (if model2.attributes.strategy > 70 then "high" else "moderate") ++ " creativity." }
  let e21 : Evaluation :=
    { score := evaluateAttribute model1 .technical 5 10
      confidence := generateConfidenceScore (rand 2)
      reasoning := "Model " ++ model1.name ++ " demonstrates " ++
        (if model1.attributes.defense > 70 then "high" else "moderate") ++ " technical stability." }
  let e22 : Evaluation :=
    { score := evaluateAttribute model2 .technical 5 10
      confidence := generateConfidenceScore (rand 3)
      reasoning := "Model " ++ model2.name ++ " demonstrates " ++
        (if model2.attributes.defense > 70 then "high" else "moderate") ++ " technical stability." }
  let e31 : Evaluation :=
    { score := evaluateAttribute model1 .performance 5 10
      confidence := generateConfidenceScore (rand 4)
      reasoning := "Model " ++ model1.name ++ " performs with " ++
        (if model1.attributes.attack_power > 70 then "high" else "moderate") ++ " effectiveness." }
  let e32 : Evaluation :=
    { score := evaluateAttribute model2 .performance 5 10
      confidence := generateConfidenceScore (rand 5)
      reasoning := "Model " ++ model2.name ++ " performs with " ++
        (if model2.attributes.attack_power > 70 then "high" else "moderate") ++ " effectiveness." }
  { modelIds := if model2.id = model1.id then [model1.id] else [model1.id, model2.id]
    llm1 := fun id => if id = model2.id then e12 else if id = model1.id then e11 else absentEvaluation
    llm2 := fun id => if id = model2.id then e22 else if id = model1.id then e21 else absentEvaluation
    llm3 := fun id => if id = model2.id then e32 else if id = model1.id then e31 else absentEvaluation }

/-! ### Concrete fixtures used by witnesses and counterexamples -/

/-- A test entity with all five attributes `0`: its feature vector is all
zeros, so the predictive network's weighted sum is exactly `0` and the true
logistic activation there is exactly `1/2`. -/
def mA : Model := { id := "alpha", name := "Alpha", attributes := ⟨0, 0, 0, 0, 0⟩ }

/-- A second all-zero-attribute test entity with a distinct id. -/
def mB : Model := { id := "beta", name := "Beta", attributes := ⟨0, 0, 0, 0, 0⟩ }

/-- An evaluation with the given score and confidence and empty reasoning. -/
def constEval (s c : ℚ) : Evaluation := { score := s, confidence := c, reasoning := "" }

/-- Every slot scores both entities `7` with confidence `0.7`. -/
def evalsConst7 : InitialEvaluations :=
  { modelIds := ["alpha", "beta"]
    llm1 := fun _ => constEval 7 0.7
    llm2 := fun _ => constEval 7 0.7
    llm3 := fun _ => constEval 7 0.7 }

/-- Every slot scores both entities `7` with confidence exactly `0` — the
degenerate all-zero-confidence aggregation input. -/
def evalsZeroConf : InitialEvaluations :=
  { modelIds := ["alpha", "beta"]
    llm1 := fun _ => constEval 7 0
    llm2 := fun _ => constEval 7 0
    llm3 := fun _ => constEval 7 0 }

/-- One entity with slot scores `{5, 10, 5}` and equal confidences `0.7`
(the spec's high-disagreement example: variance `50/9 ≈ 5.56 > 2`). -/
def evals5105 : InitialEvaluations :=
  { modelIds := ["alpha"]
    llm1 := fun _ => constEval 5 0.7
    llm2 := fun _ => constEval 10 0.7
    llm3 := fun _ => constEval 5 0.7 }

/-- One entity with slot scores `[6, 7, 8]` and confidences
`[0.7, 0.8, 0.9]` (the spec's consensus worked example). -/
def evals678 : InitialEvaluations :=
  { modelIds := ["alpha"]
    llm1 := fun _ => constEval 6 0.7
    llm2 := fun _ => constEval 7 0.8
    llm3 := fun _ => constEval 8 0.9 }

/-- Two entities on which every slot agrees: `alpha` scores `8`, `beta`
scores `6`, all confidences `1` — giving consensus finalScores `8` and
`6`. -/
def evals86 : InitialEvaluations :=
  { modelIds := ["alpha", "beta"]
    llm1 := fun id => if id = "beta" then constEval 6 1 else constEval 8 1
    llm2 := fun id => if id = "beta" then constEval 6 1 else constEval 8 1
    llm3 := fun id => if id = "beta" then constEval 6 1 else constEval 8 1 }

/-- Discussion-stage output wrapping `evals86`. -/
def dr86 : DiscussionResults := { evaluations := evals86, reasoning := "" }

/-- Discussion-stage output wrapping `evalsConst7`. -/
def dr77 : DiscussionResults := { evaluations := evalsConst7, reasoning := "" }

/-- Discussion-stage output wrapping `evals678`. -/
def dr678 : DiscussionResults := { evaluations := evals678, reasoning := "" }

/-- The consensus scores the pipeline computes on `evalsConst7` for
`mA`/`mB`. -/
def csFix : ConsensusScores := pipelineConsensus mA mB evalsConst7

/-- The predictive outcomes the pipeline computes on `evalsConst7` for
`mA`/`mB`, with the activation instantiated at the exact value `1/2` the
logistic takes on the (all-zero) weighted sums that actually occur. -/
def poFix : String → ℚ := pipelinePredictive (fun _ => 1/2) mA mB evalsConst7

/-- Six Math.random() draws, all `1/2`. -/
def randHalf : Fin 6 → ℚ := fun _ => 1/2

/-! ### Theorems -/

/-- Population variance of a three-element list, in closed form. -/
lemma calculateVariance_three (a b c : ℚ) :
    calculateVariance [a, b, c] =
      ((a - (a + b + c) / 3) ^ 2 + (b - (a + b + c) / 3) ^ 2 +
        (c - (a + b + c) / 3) ^ 2) / 3 := by
  simp [calculateVariance]
  ring

/-- Population variance of a three-element list is nonnegative. -/
lemma calculateVariance_nonneg (a b c : ℚ) : 0 ≤ calculateVariance [a, b, c] := by
  rw [calculateVariance_three]
  positivity

/-- One convergence round, evaluated at a listed entity: each slot score
moves to `old·(1-0.4) + mean·0.4` (mean over the pre-adjustment slots) and
each confidence to `old + (1-old)·0.3`. -/
lemma simulateDiscussionRound_eval (ie : InitialEvaluations) (modelId : String)
    (h : modelId ∈ ie.modelIds) :
    ((simulateDiscussionRound ie).llm1 modelId).score
        = (ie.llm1 modelId).score * 0.6
          + (((ie.llm1 modelId).score + (ie.llm2 modelId).score + (ie.llm3 modelId).score) / 3) * 0.4 ∧
    ((simulateDiscussionRound ie).llm2 modelId).score
        = (ie.llm2 modelId).score * 0.6
          + (((ie.llm1 modelId).score + (ie.llm2 modelId).score + (ie.llm3 modelId).score) / 3) * 0.4 ∧
    ((simulateDiscussionRound ie).llm3 modelId).score
        = (ie.llm3 modelId).score * 0.6
          + (((ie.llm1 modelId).score + (ie.llm2 modelId).score + (ie.llm3 modelId).score) / 3) * 0.4 ∧
    ((simulateDiscussionRound ie).llm1 modelId).confidence
        = (ie.llm1 modelId).confidence + (1 - (ie.llm1 modelId).confidence) * 0.3 ∧
    ((simulateDiscussionRound ie).llm2 modelId).confidence
        = (ie.llm2 modelId).confidence + (1 - (ie.llm2 modelId).confidence) * 0.3 ∧
    ((simulateDiscussionRound ie).llm3 modelId).confidence
        = (ie.llm3 modelId).confidence + (1 - (ie.llm3 modelId).confidence) * 0.3 := by
  refine ⟨?_, ?_, ?_, ?_, ?_, ?_⟩ <;>
    · simp [simulateDiscussionRound, slotScores, h]
      try ring

/-- C4: `determineWinnerModel` returns the entity whose blended score is
strictly greater, and on exact equality of the two blended scores it
returns the second entity (the comparison is a strict `>` against the
first entity). -/
theorem C4_tie_break (model1 model2 : Model) (cs : ConsensusScores)
    (po : String → ℚ) (b1 b2 : ℚ)
    (h1 : blendedFinalScore cs po model1.id = some b1)
    (h2 : blendedFinalScore cs po model2.id = some b2) :
    (b2 < b1 → determineWinnerModel model1 model2 cs po = model1) ∧
    (b1 < b2 → determineWinnerModel model1 model2 cs po = model2) ∧
    (b1 = b2 → determineWinnerModel model1 model2 cs po = model2) := by
  unfold determineWinnerModel
  rw [h1, h2]
  refine ⟨fun h => ?_, fun h => ?_, fun h => ?_⟩
  · simp [jsGt, h]
  · simp [jsGt, asymm h]
  · simp [jsGt, h]

/-- The Discussion Stage passes `evalsConst7` (zero variance) through
unchanged. -/
lemma facilitate_const7 :
    facilitateInteractiveDiscussion evalsConst7
      = { evaluations := evalsConst7, reasoning := agreementReasoning } := by
  unfold facilitateInteractiveDiscussion
  rw [if_neg]
  rintro ⟨modelId, -, hgt⟩
  have h0 : varianceByModel evalsConst7 modelId = 0 := by
    show calculateVariance [7, 7, 7] = 0
    rw [calculateVariance_three]
    ring
  rw [h0] at hgt
  norm_num at hgt

/-- The consensus entry computed on `evalsConst7` for any id. -/
lemma consensusEntry_const7 (modelId : String) :
    consensusEntry evalsConst7 modelId
      = { individualScores := [7, 7, 7]
          confidenceScores := [0.7, 0.7, 0.7]
          weightedScores := [4.9, 4.9, 4.9]
          finalScore := some 7 } := by
  unfold consensusEntry slotScores jsDiv
  norm_num [evalsConst7, constEval]

/-- Every consensus finalScore on `evalsConst7` is exactly `7`. -/
lemma csFix_finalScore (modelId : String) :
    (csFix.entries modelId).finalScore = some 7 := by
  unfold csFix pipelineConsensus
  rw [facilitate_const7]
  show (consensusEntry evalsConst7 modelId).finalScore = some 7
  rw [consensusEntry_const7]

/-- The shared consensus confidence on `evalsConst7` is `0.5` (zero score
gap). -/
lemma csFix_confidence : csFix.confidence = some 0.5 := by
  unfold csFix pipelineConsensus
  rw [facilitate_const7]
  unfold calculateConsensusScores
  show jsMin1 ((jsAbs (jsSub (consensusEntry evalsConst7 (List.getD [mA.id, mB.id] 0 "")).finalScore
      (consensusEntry evalsConst7 (List.getD [mA.id, mB.id] 1 "")).finalScore)).map
        (fun d => d / 2 + 0.5)) = some 0.5
  rw [consensusEntry_const7, consensusEntry_const7]
  show jsMin1 ((jsAbs (some (7 - 7))).map (fun d => d / 2 + 0.5)) = some 0.5
  norm_num [jsAbs, jsMin1]

/-- The predictive outcome of an all-zero-attribute entity is the
activation taken at the exact input `0` (every feature, hence every
weighted feature, is `0`). -/
lemma predictive_zeroAttr (sigmoid : ℚ → ℚ) (model : Model) (cs : ConsensusScores)
    (hattr : model.attributes = ⟨0, 0, 0, 0, 0⟩) :
    predictiveOutcomeFor sigmoid model cs = sigmoid 0 := by
  unfold predictiveOutcomeFor simulateNeuralNetworkPrediction generateFeatureVector
  rw [hattr]
  norm_num [List.enum, List.enumFrom]

/-- The pipeline's predictive outcome for `mA` on `evalsConst7`, with the
activation instantiated at its exact value `1/2` on input `0`. -/
lemma poFix_alpha : poFix "alpha" = 1/2 := by
  unfold poFix pipelinePredictive generatePredictiveOutcomes
  show (if "alpha" = mB.id then _ else if "alpha" = mA.id then _ else 0) = 1/2
  rw [if_neg (by simp [mB]), if_pos (by simp [mA]),
    predictive_zeroAttr _ _ _ (by simp [mA])]

/-- The pipeline's predictive outcome for `mB` on `evalsConst7`. -/
lemma poFix_beta : poFix "beta" = 1/2 := by
  unfold poFix pipelinePredictive generatePredictiveOutcomes
  show (if "beta" = mB.id then _ else if "beta" = mA.id then _ else 0) = 1/2
  rw [if_pos (by simp [mB]), predictive_zeroAttr _ _ _ (by simp [mB])]

/-- Both blended scores on `evalsConst7` equal `0.7·7 + 0.3·(1/2)·10 =
32/5`. -/
lemma blended_const7_alpha : blendedFinalScore csFix poFix "alpha" = some (32/5) := by
  unfold blendedFinalScore
  rw [csFix_finalScore]
  simp [poFix_alpha]
  norm_num

/-- The `mB` blended score on `evalsConst7`. -/
lemma blended_const7_beta : blendedFinalScore csFix poFix "beta" = some (32/5) := by
  unfold blendedFinalScore
  rw [csFix_finalScore]
  simp [poFix_beta]
  norm_num

/-- C4 witness: on `evalsConst7` both blended scores are exactly `32/5`
(consensus `7`, predictive outcome `1/2`), and the tie goes to the second
entity `mB`. -/
theorem C4_witness :
    blendedFinalScore csFix poFix mA.id = some (32/5) ∧
    blendedFinalScore csFix poFix mB.id = some (32/5) ∧
    determineWinnerModel mA mB csFix poFix = mB :=
  ⟨blended_const7_alpha, blended_const7_beta,
    (C4_tie_break mA mB csFix poFix (32/5) (32/5)
      blended_const7_alpha blended_const7_beta).2.2 rfl⟩

/-- C7: when every listed entity's slot-score variance is at most the
threshold `2`, the Discussion Stage returns the evaluation set unchanged
(every score and confidence identical); and the population variance of
three equal scores is `0`. -/
theorem C7_no_discussion (ie : InitialEvaluations)
    (h : ∀ modelId ∈ ie.modelIds, varianceByModel ie modelId ≤ 2) :
    (facilitateInteractiveDiscussion ie).evaluations = ie ∧
    ∀ s : ℚ, calculateVariance [s, s, s] = 0 := by
  constructor
  · unfold facilitateInteractiveDiscussion
    rw [if_neg]
    rintro ⟨modelId, hmem, hgt⟩
    exact absurd hgt (not_lt.mpr (h modelId hmem))
  · intro s
    rw [calculateVariance_three]
    ring

/-- C7 witness: on `evalsConst7` (all scores `7`) every variance is `0 ≤ 2`
and the Discussion Stage returns the evaluations unchanged. -/
theorem C7_witness :
    (∀ modelId ∈ evalsConst7.modelIds, varianceByModel evalsConst7 modelId ≤ 2) ∧
    (facilitateInteractiveDiscussion evalsConst7).evaluations = evalsConst7 := by
  have h : ∀ modelId ∈ evalsConst7.modelIds, varianceByModel evalsConst7 modelId ≤ 2 := by
    intro modelId _
    show calculateVariance [7, 7, 7] ≤ 2
    rw [calculateVariance_three]
    norm_num
  exact ⟨h, (C7_no_discussion evalsConst7 h).1⟩

/-- C5: when some listed entity's slot-score variance exceeds the
threshold `2`, the Discussion Stage runs exactly one convergence round
(one application of `simulateDiscussionRound`), and for every listed
entity and every slot the new score is `oldScore·0.6 + mean·0.4` (mean of
that entity's three pre-adjustment slot scores) and the new confidence is
`oldConfidence + (1 - oldConfidence)·0.3`. -/
theorem C5_convergence_round (ie : InitialEvaluations)
    (h : ∃ modelId ∈ ie.modelIds, varianceByModel ie modelId > 2) :
    (facilitateInteractiveDiscussion ie).evaluations = simulateDiscussionRound ie ∧
    ∀ modelId ∈ ie.modelIds,
      ((simulateDiscussionRound ie).llm1 modelId).score
          = (ie.llm1 modelId).score * 0.6
            + (((ie.llm1 modelId).score + (ie.llm2 modelId).score + (ie.llm3 modelId).score) / 3) * 0.4 ∧
      ((simulateDiscussionRound ie).llm2 modelId).score
          = (ie.llm2 modelId).score * 0.6
            + (((ie.llm1 modelId).score + (ie.llm2 modelId).score + (ie.llm3 modelId).score) / 3) * 0.4 ∧
      ((simulateDiscussionRound ie).llm3 modelId).score
          = (ie.llm3 modelId).score * 0.6
            + (((ie.llm1 modelId).score + (ie.llm2 modelId).score + (ie.llm3 modelId).score) / 3) * 0.4 ∧
      ((simulateDiscussionRound ie).llm1 modelId).confidence
          = (ie.llm1 modelId).confidence + (1 - (ie.llm1 modelId).confidence) * 0.3 ∧
      ((simulateDiscussionRound ie).llm2 modelId).confidence
          = (ie.llm2 modelId).confidence + (1 - (ie.llm2 modelId).confidence) * 0.3 ∧
      ((simulateDiscussionRound ie).llm3 modelId).confidence
          = (ie.llm3 modelId).confidence + (1 - (ie.llm3 modelId).confidence) * 0.3 := by
  refine ⟨?_, fun modelId hm => simulateDiscussionRound_eval ie modelId hm⟩
  unfold facilitateInteractiveDiscussion
  rw [if_pos h]

/-- C5 witness: slot scores `{5, 10, 5}` have variance `50/9 > 2`; the
convergence round runs and moves the second slot's score to
`10·0.6 + (20/3)·0.4`. -/
theorem C5_witness :
    (∃ modelId ∈ evals5105.modelIds, varianceByModel evals5105 modelId > 2) ∧
    (facilitateInteractiveDiscussion evals5105).evaluations = simulateDiscussionRound evals5105 ∧
    ((simulateDiscussionRound evals5105).llm2 "alpha").score
        = (evals5105.llm2 "alpha").score * 0.6
          + (((evals5105.llm1 "alpha").score + (evals5105.llm2 "alpha").score
              + (evals5105.llm3 "alpha").score) / 3) * 0.4 := by
  have h : ∃ modelId ∈ evals5105.modelIds, varianceByModel evals5105 modelId > 2 := by
    refine ⟨"alpha", by simp [evals5105], ?_⟩
    show calculateVariance [5, 10, 5] > 2
    rw [calculateVariance_three]
    norm_num
  obtain ⟨h1, h2⟩ := C5_convergence_round evals5105 h
  exact ⟨h, h1, (h2 "alpha" (by simp [evals5105])).2.1⟩

/-- C6 counterexample: scores `[6, 7, 8]` with confidences
`[0.7, 0.8, 0.9]` yield consensus finalScore
`(4.2 + 5.6 + 7.2)/2.4 = 17/2.4 = 85/12 ≈ 7.083`, which is not the claimed
`7.5`. -/
theorem C6_counterexample :
    ((calculateConsensusScores dr678 ["alpha"]).entries "alpha").finalScore = some (85/12) ∧
    (85/12 : ℚ) ≠ 7.5 := by
  constructor
  · show (consensusEntry evals678 "alpha").finalScore = some (85/12)
    unfold consensusEntry slotScores jsDiv
    norm_num [evals678, constEval]
  · norm_num

/-- C6 (amended): for every entity whose three slot confidences have a
positive sum, the consensus finalScore is the confidence-weighted average
`(s₁c₁ + s₂c₂ + s₃c₃)/(c₁ + c₂ + c₃); in particular scores [6,7,8] with
confidences [0.7,0.8,0.9] yield 85/12, not 7.5. -/
theorem C6_weighted_average (dr : DiscussionResults) (modelIds : List String) (modelId : String)
    (hpos : 0 < (dr.evaluations.llm1 modelId).confidence
        + (dr.evaluations.llm2 modelId).confidence
        + (dr.evaluations.llm3 modelId).confidence) :
    ((calculateConsensusScores dr modelIds).entries modelId).finalScore
      = some (((dr.evaluations.llm1 modelId).score * (dr.evaluations.llm1 modelId).confidence
          + (dr.evaluations.llm2 modelId).score * (dr.evaluations.llm2 modelId).confidence
          + (dr.evaluations.llm3 modelId).score * (dr.evaluations.llm3 modelId).confidence)
        / ((dr.evaluations.llm1 modelId).confidence
          + (dr.evaluations.llm2 modelId).confidence
          + (dr.evaluations.llm3 modelId).confidence)) := by
  have hne : ¬((dr.evaluations.llm1 modelId).confidence
      + ((dr.evaluations.llm2 modelId).confidence
      + ((dr.evaluations.llm3 modelId).confidence + 0)) = 0) := by
    intro h0
    rw [add_zero, ← add_assoc] at h0
    linarith
  show jsDiv ((dr.evaluations.llm1 modelId).score * (dr.evaluations.llm1 modelId).confidence
      + ((dr.evaluations.llm2 modelId).score * (dr.evaluations.llm2 modelId).confidence
      + ((dr.evaluations.llm3 modelId).score * (dr.evaluations.llm3 modelId).confidence + 0)))
    ((dr.evaluations.llm1 modelId).confidence
      + ((dr.evaluations.llm2 modelId).confidence
      + ((dr.evaluations.llm3 modelId).confidence + 0))) = _
  unfold jsDiv
  rw [if_neg hne]
  congr 1
  ring

/-- C6 witness: the worked example — confidences sum to `2.4 > 0` and the
weighted average formula applies, giving `17/2.4 = 85/12`. -/
theorem C6_witness :
    (0 : ℚ) < (dr678.evaluations.llm1 "alpha").confidence
        + (dr678.evaluations.llm2 "alpha").confidence
        + (dr678.evaluations.llm3 "alpha").confidence ∧
    ((calculateConsensusScores dr678 ["alpha"]).entries "alpha").finalScore
      = some (((dr678.evaluations.llm1 "alpha").score * (dr678.evaluations.llm1 "alpha").confidence
          + (dr678.evaluations.llm2 "alpha").score * (dr678.evaluations.llm2 "alpha").confidence
          + (dr678.evaluations.llm3 "alpha").score * (dr678.evaluations.llm3 "alpha").confidence)
        / ((dr678.evaluations.llm1 "alpha").confidence
          + (dr678.evaluations.llm2 "alpha").confidence
          + (dr678.evaluations.llm3 "alpha").confidence)) := by
  have hpos : (0 : ℚ) < (dr678.evaluations.llm1 "alpha").confidence
      + (dr678.evaluations.llm2 "alpha").confidence
      + (dr678.evaluations.llm3 "alpha").confidence := by
    norm_num [dr678, evals678, constEval]
  exact ⟨hpos, C6_weighted_average dr678 ["alpha"] "alpha" hpos⟩

/-- C8: with exactly two entity ids the shared consensus confidence is
`min(1, |finalScore_A - finalScore_B| / 2 + 0.5)` (when both finalScores
are numeric), and with fewer than two ids it defaults to `0.7`. -/
theorem C8_overall_confidence (dr : DiscussionResults) (idA idB : String) (fa fb : ℚ)
    (ha : ((calculateConsensusScores dr [idA, idB]).entries idA).finalScore = some fa)
    (hb : ((calculateConsensusScores dr [idA, idB]).entries idB).finalScore = some fb) :
    (calculateConsensusScores dr [idA, idB]).confidence
        = some (min 1 (|fa - fb| / 2 + 0.5)) ∧
    (∀ (dr2 : DiscussionResults) (modelId : String),
      (calculateConsensusScores dr2 [modelId]).confidence = some 0.7) ∧
    (∀ dr2 : DiscussionResults, (calculateConsensusScores dr2 []).confidence = some 0.7) := by
  refine ⟨?_, fun dr2 modelId => rfl, fun dr2 => rfl⟩
  have ha2 : (consensusEntry dr.evaluations idA).finalScore = some fa := ha
  have hb2 : (consensusEntry dr.evaluations idB).finalScore = some fb := hb
  show jsMin1 ((jsAbs (jsSub (consensusEntry dr.evaluations idA).finalScore
      (consensusEntry dr.evaluations idB).finalScore)).map (fun d => d / 2 + 0.5))
    = some (min 1 (|fa - fb| / 2 + 0.5))
  rw [ha2, hb2]
  simp [jsSub, jsAbs, jsMin1]

/-- C8 witness: finalScores `8` and `6` give confidence
`min(1, 1 + 0.5) = 1`; finalScores `7` and `7` give `min(1, 0.5) = 0.5`. -/
theorem C8_witness :
    ((calculateConsensusScores dr86 ["alpha", "beta"]).entries "alpha").finalScore = some 8 ∧
    ((calculateConsensusScores dr86 ["alpha", "beta"]).entries "beta").finalScore = some 6 ∧
    (calculateConsensusScores dr86 ["alpha", "beta"]).confidence = some 1 ∧
    ((calculateConsensusScores dr77 ["alpha", "beta"]).entries "alpha").finalScore = some 7 ∧
    ((calculateConsensusScores dr77 ["alpha", "beta"]).entries "beta").finalScore = some 7 ∧
    (calculateConsensusScores dr77 ["alpha", "beta"]).confidence = some 0.5 := by
  have ha : ((calculateConsensusScores dr86 ["alpha", "beta"]).entries "alpha").finalScore
      = some 8 := by
    show (consensusEntry evals86 "alpha").finalScore = some 8
    unfold consensusEntry slotScores jsDiv
    simp [evals86, constEval]
    norm_num
  have hb : ((calculateConsensusScores dr86 ["alpha", "beta"]).entries "beta").finalScore
      = some 6 := by
    show (consensusEntry evals86 "beta").finalScore = some 6
    unfold consensusEntry slotScores jsDiv
    simp [evals86, constEval]
    norm_num
  have hc : ((calculateConsensusScores dr77 ["alpha", "beta"]).entries "alpha").finalScore
      = some 7 := by
    show (consensusEntry evalsConst7 "alpha").finalScore = some 7
    rw [consensusEntry_const7]
  have hd : ((calculateConsensusScores dr77 ["alpha", "beta"]).entries "beta").finalScore
      = some 7 := by
    show (consensusEntry evalsConst7 "beta").finalScore = some 7
    rw [consensusEntry_const7]
  refine ⟨ha, hb, ?_, hc, hd, ?_⟩
  · rw [(C8_overall_confidence dr86 "alpha" "beta" 8 6 ha hb).1]
    norm_num
  · rw [(C8_overall_confidence dr77 "alpha" "beta" 7 7 hc hd).1]
    norm_num

/-- C10: one convergence round scales each listed entity's slot-score
population variance by exactly `(1 - 0.4)² = 9/25 = 0.36`; consequently a
round strictly reduces any nonzero variance. -/
theorem C10_variance_contraction (ie : InitialEvaluations) (modelId : String)
    (h : modelId ∈ ie.modelIds) :
    varianceByModel (simulateDiscussionRound ie) modelId
        = (9 / 25) * varianceByModel ie modelId ∧
    (varianceByModel ie modelId ≠ 0 →
      varianceByModel (simulateDiscussionRound ie) modelId < varianceByModel ie modelId) := by
  obtain ⟨e1, e2, e3, -, -, -⟩ := simulateDiscussionRound_eval ie modelId h
  have key : varianceByModel (simulateDiscussionRound ie) modelId
      = (9 / 25) * varianceByModel ie modelId := by
    unfold varianceByModel slotScores
    rw [e1, e2, e3, calculateVariance_three, calculateVariance_three]
    ring
  refine ⟨key, fun hne => ?_⟩
  have hnonneg : 0 ≤ varianceByModel ie modelId := calculateVariance_nonneg _ _ _
  have hpos : 0 < varianceByModel ie modelId := lt_of_le_of_ne hnonneg (Ne.symm hne)
  rw [key]
  nlinarith

/-- C10 witness: on the `{5, 10, 5}` entity the pre-round variance is
`50/9` and the post-round variance is exactly `9/25 · 50/9 = 2`. -/
theorem C10_witness :
    "alpha" ∈ evals5105.modelIds ∧
    varianceByModel (simulateDiscussionRound evals5105) "alpha"
        = (9 / 25) * varianceByModel evals5105 "alpha" := by
  have h : "alpha" ∈ evals5105.modelIds := by simp [evals5105]
  exact ⟨h, (C10_variance_contraction evals5105 "alpha" h).1⟩

/-- C9: for two valid (distinct-id) entities, `determineWinner` returns a
result whose winner is one of the two input entities and whose scores
object holds exactly the two input entity ids as keys, in argument
order. -/
theorem C9_result_shape (sigmoid : ℚ → ℚ) (model1 model2 : Model)
    (evaluations : InitialEvaluations) (h : model1.id ≠ model2.id) :
    ((determineWinner sigmoid model1 model2 evaluations).winner = model1 ∨
      (determineWinner sigmoid model1 model2 evaluations).winner = model2) ∧
    (determineWinner sigmoid model1 model2 evaluations).scores.map Prod.fst
        = [model1.id, model2.id] := by
  constructor
  · show (determineWinnerModel model1 model2 (pipelineConsensus model1 model2 evaluations)
        (pipelinePredictive sigmoid model1 model2 evaluations) = model1 ∨
      determineWinnerModel model1 model2 (pipelineConsensus model1 model2 evaluations)
        (pipelinePredictive sigmoid model1 model2 evaluations) = model2)
    unfold determineWinnerModel
    exact ite_eq_or_eq _ _ _
  · show (scoresLiteral model1.id model2.id
        ((pipelineConsensus model1 model2 evaluations).entries model1.id).finalScore
        ((pipelineConsensus model1 model2 evaluations).entries model2.id).finalScore).map Prod.fst
      = [model1.id, model2.id]
    unfold scoresLiteral
    rw [if_neg h]
    rfl

/-- C9 witness: `mA`, `mB` have distinct ids and the scores object holds
exactly `["alpha", "beta"]` as keys. -/
theorem C9_witness :
    mA.id ≠ mB.id ∧
    (determineWinner (fun _ => 1/2) mA mB evalsConst7).scores.map Prod.fst = [mA.id, mB.id] := by
  have h : mA.id ≠ mB.id := by decide
  exact ⟨h, (C9_result_shape (fun _ => 1/2) mA mB evalsConst7 h).2⟩

/-- C1 (amended): the `scores` object of the returned MatchResult maps each
entity id to that entity's consensus `finalScore` (Σ score·confidence /
Σ confidence) — not the blended `0.7·finalScore + 0.3·predictiveOutcome·10`
value; the winner, by contrast, is chosen by comparing the blended
values, so the stored scores are not the values used to pick the winner. -/
theorem C1_scores_are_consensus (sigmoid : ℚ → ℚ) (model1 model2 : Model)
    (evaluations : InitialEvaluations) (h : model1.id ≠ model2.id) :
    (determineWinner sigmoid model1 model2 evaluations).scores
        = [(model1.id, ((pipelineConsensus model1 model2 evaluations).entries model1.id).finalScore),
           (model2.id, ((pipelineConsensus model1 model2 evaluations).entries model2.id).finalScore)] ∧
    (determineWinner sigmoid model1 model2 evaluations).winner
        = (if jsGt (blendedFinalScore (pipelineConsensus model1 model2 evaluations)
                (pipelinePredictive sigmoid model1 model2 evaluations) model1.id)
              (blendedFinalScore (pipelineConsensus model1 model2 evaluations)
                (pipelinePredictive sigmoid model1 model2 evaluations) model2.id)
            then model1 else model2) := by
  constructor
  · show scoresLiteral model1.id model2.id
        ((pipelineConsensus model1 model2 evaluations).entries model1.id).finalScore
        ((pipelineConsensus model1 model2 evaluations).entries model2.id).finalScore = _
    unfold scoresLiteral
    rw [if_neg h]
  · rfl

/-- C1 witness: the amended statement instantiated on `evalsConst7` with
distinct ids "alpha" and "beta". -/
theorem C1_witness :
    mA.id ≠ mB.id ∧
    (determineWinner (fun _ => 1/2) mA mB evalsConst7).scores
        = [(mA.id, ((pipelineConsensus mA mB evalsConst7).entries mA.id).finalScore),
           (mB.id, ((pipelineConsensus mA mB evalsConst7).entries mB.id).finalScore)] := by
  have h : mA.id ≠ mB.id := by decide
  exact ⟨h, (C1_scores_are_consensus (fun _ => 1/2) mA mB evalsConst7 h).1⟩

/-- C1 counterexample: on concrete inputs (all-zero-attribute entities, so
the activation is taken only at `0` where the logistic is exactly `1/2`;
every slot scores `7` at confidence `0.7`) the returned scores object
stores `some 7` for "alpha", while the value used to pick the winner is
the blended `some (32/5) = 6.4`; since `7 ≠ 32/5`, the scores object does
not map the entity to its blended score. -/
theorem C1_counterexample :
    (determineWinner (fun _ => 1/2) mA mB evalsConst7).scores
        = [("alpha", some 7), ("beta", some 7)] ∧
    blendedFinalScore (pipelineConsensus mA mB evalsConst7)
        (pipelinePredictive (fun _ => 1/2) mA mB evalsConst7) "alpha" = some (32/5) ∧
    (7 : ℚ) ≠ 32/5 := by
  refine ⟨?_, ?_, by norm_num⟩
  · show scoresLiteral mA.id mB.id (csFix.entries mA.id).finalScore (csFix.entries mB.id).finalScore
      = [("alpha", some 7), ("beta", some 7)]
    unfold scoresLiteral
    rw [if_neg (by decide), csFix_finalScore, csFix_finalScore]
    rfl
  · show blendedFinalScore csFix poFix "alpha" = some (32/5)
    exact blended_const7_alpha

/-- C2 (code behavior at the failing input): with every slot confidence
exactly `0`, the consensus computation performs `0/0` — IEEE NaN, modeled
`none` — and no error is raised anywhere; the pipeline returns a complete,
normally shaped result: non-numeric (NaN) scores for both entities, the
second entity as winner (NaN comparisons are false), confidence falling
back to `0.7` (NaN is falsy in `confidence || 0.7`), and the agreement
reasoning text.  No generic "aggregation failed" error exists in the
code. -/
theorem C2_nan_instead_of_error :
    ((pipelineConsensus mA mB evalsZeroConf).entries "alpha").finalScore = none ∧
    ((pipelineConsensus mA mB evalsZeroConf).entries "beta").finalScore = none ∧
    (determineWinner (fun _ => 1/2) mA mB evalsZeroConf).winner = mB ∧
    (determineWinner (fun _ => 1/2) mA mB evalsZeroConf).scores
        = [("alpha", none), ("beta", none)] ∧
    (determineWinner (fun _ => 1/2) mA mB evalsZeroConf).confidence = 0.7 ∧
    (determineWinner (fun _ => 1/2) mA mB evalsZeroConf).reasoning = agreementReasoning := by
  have hfac : facilitateInteractiveDiscussion evalsZeroConf
      = { evaluations := evalsZeroConf, reasoning := agreementReasoning } := by
    unfold facilitateInteractiveDiscussion
    rw [if_neg]
    rintro ⟨modelId, -, hgt⟩
    have h0 : varianceByModel evalsZeroConf modelId = 0 := by
      show calculateVariance [7, 7, 7] = 0
      rw [calculateVariance_three]
      ring
    rw [h0] at hgt
    norm_num at hgt
  have hentry : ∀ modelId : String, (consensusEntry evalsZeroConf modelId).finalScore = none := by
    intro modelId
    show jsDiv (7 * 0 + (7 * 0 + (7 * 0 + 0))) (0 + (0 + (0 + 0))) = none
    unfold jsDiv
    norm_num
  have hcs : ∀ modelId : String,
      ((pipelineConsensus mA mB evalsZeroConf).entries modelId).finalScore = none := by
    intro modelId
    show (consensusEntry (facilitateInteractiveDiscussion evalsZeroConf).evaluations
        modelId).finalScore = none
    rw [hfac]
    exact hentry modelId
  have hconf : (pipelineConsensus mA mB evalsZeroConf).confidence = none := by
    show jsMin1 ((jsAbs (jsSub
        ((pipelineConsensus mA mB evalsZeroConf).entries (List.getD [mA.id, mB.id] 0 "")).finalScore
        ((pipelineConsensus mA mB evalsZeroConf).entries (List.getD [mA.id, mB.id] 1 "")).finalScore)).map
          (fun d => d / 2 + 0.5)) = none
    rw [hcs, hcs]
    rfl
  refine ⟨hcs "alpha", hcs "beta", ?_, ?_, ?_, ?_⟩
  · show determineWinnerModel mA mB (pipelineConsensus mA mB evalsZeroConf)
        (pipelinePredictive (fun _ => 1/2) mA mB evalsZeroConf) = mB
    unfold determineWinnerModel blendedFinalScore
    rw [hcs, hcs]
    rfl
  · show scoresLiteral mA.id mB.id
        ((pipelineConsensus mA mB evalsZeroConf).entries mA.id).finalScore
        ((pipelineConsensus mA mB evalsZeroConf).entries mB.id).finalScore
      = [("alpha", none), ("beta", none)]
    rw [hcs, hcs]
    unfold scoresLiteral
    rw [if_neg (by decide)]
    rfl
  · show jsOrDefault (pipelineConsensus mA mB evalsZeroConf).confidence 0.7 = 0.7
    rw [hconf]
    rfl
  · show (facilitateInteractiveDiscussion evalsZeroConf).reasoning = agreementReasoning
    rw [hfac]

/-- C3 counterexample: in the heuristic fallback pass with the (perfectly
reachable) random draws all `1/2`, the llm1 evaluation of `mA` carries
confidence `0.7 + (1/2)·0.25 = 0.825 ≠ 0.7` — the fallback confidence is
not the fixed value `0.7`. -/
theorem C3_counterexample :
    ((performSimulatedEvaluations randHalf mA mB).llm1 "alpha").confidence = 0.825 ∧
    (0.825 : ℚ) ≠ 0.7 := by
  constructor
  · unfold performSimulatedEvaluations
    simp [mA, mB, randHalf, generateConfidenceScore]
    norm_num
  · norm_num

/-- C3 (amended): in the heuristic fallback pass each of the six
evaluations carries confidence `0.7 + r·0.25` for that call's
`Math.random()` draw `r`; for draws in `[0, 1)` every confidence lies in
`[0.7, 0.95)` — `0.7` is the infimum (attained only at `r = 0`), not a
fixed constant. -/
theorem C3_fallback_confidence (rand : Fin 6 → ℚ) (model1 model2 : Model)
    (hr : ∀ i, 0 ≤ rand i ∧ rand i < 1) (hid : model1.id ≠ model2.id) :
    (((performSimulatedEvaluations rand model1 model2).llm1 model1.id).confidence
        = generateConfidenceScore (rand 0) ∧
     ((performSimulatedEvaluations rand model1 model2).llm1 model2.id).confidence
        = generateConfidenceScore (rand 1) ∧
     ((performSimulatedEvaluations rand model1 model2).llm2 model1.id).confidence
        = generateConfidenceScore (rand 2) ∧
     ((performSimulatedEvaluations rand model1 model2).llm2 model2.id).confidence
        = generateConfidenceScore (rand 3) ∧
     ((performSimulatedEvaluations rand model1 model2).llm3 model1.id).confidence
        = generateConfidenceScore (rand 4) ∧
     ((performSimulatedEvaluations rand model1 model2).llm3 model2.id).confidence
        = generateConfidenceScore (rand 5)) ∧
    ∀ i, 0.7 ≤ generateConfidenceScore (rand i) ∧ generateConfidenceScore (rand i) < 0.95 := by
  constructor
  · unfold performSimulatedEvaluations
    refine ⟨?_, ?_, ?_, ?_, ?_, ?_⟩ <;> simp [hid]
  · intro i
    obtain ⟨h0, h1⟩ := hr i
    unfold generateConfidenceScore
    constructor
    · nlinarith
    · nlinarith

/-- C3 witness: the amended statement instantiated at draws all `1/2` on
`mA`, `mB`: the first confidence is `generateConfidenceScore (1/2)` and
lies in `[0.7, 0.95)`. -/
theorem C3_witness :
    (∀ i : Fin 6, 0 ≤ randHalf i ∧ randHalf i < 1) ∧ mA.id ≠ mB.id ∧
    ((performSimulatedEvaluations randHalf mA mB).llm1 mA.id).confidence
        = generateConfidenceScore (randHalf 0) ∧
    0.7 ≤ generateConfidenceScore (randHalf 0) ∧ generateConfidenceScore (randHalf 0) < 0.95 := by
  have hr : ∀ i : Fin 6, 0 ≤ randHalf i ∧ randHalf i < 1 := by
    intro i
    unfold randHalf
    norm_num
  have hid : mA.id ≠ mB.id := by decide
  obtain ⟨hconf, hbounds⟩ := C3_fallback_confidence randHalf mA mB hr hid
  exact ⟨hr, hid, hconf.1, hbounds 0⟩

end PTCE
